import Mathlib

/-!
Verification development for the two freqtrade hyperopt configuration files
`user_data/hyperopts/bb_rsi_hyperopt.py` (class `BBRSIHyperOpt`) and
`user_data/hyperopts/strategy2_hyperopt.py` (class `Strategy002Hyperopt`).

A pandas `DataFrame` is modelled as a row count together with an ordered
association list from column names to columns; a column is a list of
optional rationals (a missing value, `none`, plays the role of NaN: every
comparison against it is `false`, as in pandas).  A hyperopt parameter
assignment (`params`) is an association list from names to values, where a
value is a bool, a number or a string.  Fallible operations (column and key
lookups, comparisons against a value of the wrong type) return
`Except String`, the error message naming the Python exception.
-/

abbrev Cell := Option ℚ

inductive Value where
  | vBool (b : Bool)
  | vNum (q : ℚ)
  | vStr (s : String)
deriving DecidableEq

abbrev Params := List (String × Value)

/-- Python truthiness of a parameter value (`bool(v)`). -/
def truthyV : Value → Bool
  | .vBool b => b
  | .vNum q => q != 0
  | .vStr s => s != ""

/-- Truthiness of an optional lookup result; an absent key is falsy. -/
def truthy (o : Option Value) : Bool :=
  match o with
  | some v => truthyV v
  | none => false

structure DataFrame where
  nrows : Nat
  cols : List (String × List Cell)
deriving DecidableEq

/-- `params[k]`: raises `KeyError` when the key is absent. -/
def getParam (p : Params) (k : String) : Except String Value :=
  match p.lookup k with
  | some v => .ok v
  | none => .error ("KeyError: " ++ k)

/-- `dataframe[name]`: raises `KeyError` when the column is absent. -/
def getCol (df : DataFrame) (name : String) : Except String (List Cell) :=
  match df.cols.lookup name with
  | some c => .ok c
  | none => .error ("KeyError: " ++ name)

/-- Replace the first column entry named `name` (or append a new one). -/
def setCol : List (String × List Cell) → String → List Cell → List (String × List Cell)
  | [], name, c => [(name, c)]
  | (n, c0) :: rest, name, c =>
    if n = name then (n, c) :: rest else (n, c0) :: setCol rest name c

/-- `dataframe[name] = column`: whole-column assignment. -/
def setW (df : DataFrame) (name : String) (c : List Cell) : DataFrame :=
  { df with cols := setCol df.cols name c }

/-- Rows selected by the mask receive `some v`; the rest keep their old cell. -/
def applyMask : List Bool → List Cell → ℚ → List Cell
  | [], old, _ => old
  | _ :: _, [], _ => []
  | m :: ms, o :: os, v => (if m then some v else o) :: applyMask ms os v

/-- `dataframe.loc[mask, name] = v`: marks masked rows of column `name` with
`v`, leaving every other row at its previous value; an absent column starts
out all-NaN, as in pandas. -/
def locSet (df : DataFrame) (mask : List Bool) (name : String) (v : ℚ) : DataFrame :=
  let old := (df.cols.lookup name).getD (List.replicate df.nrows none)
  { df with cols := setCol df.cols name (applyMask mask old v) }

/-- Elementwise `&` of two boolean columns. -/
def zipAnd (a b : List Bool) : List Bool := List.zipWith (· && ·) a b

/-- `reduce(lambda x, y: x & y, conditions)`. -/
def andAll : List (List Bool) → List Bool
  | [] => []
  | c :: cs => cs.foldl zipAnd c

/-- The tail of every generated evaluator:
`if conditions: dataframe.loc[reduce(and, conditions), sig] = 1`. -/
def markSignal (df : DataFrame) (cs : List (List Bool)) (sig : String) : DataFrame :=
  match cs with
  | [] => df
  | _ :: _ => locSet df (andAll cs) sig 1

def cellLt (c : Cell) (q : ℚ) : Bool :=
  match c with
  | some a => decide (a < q)
  | none => false

def cellGt (c : Cell) (q : ℚ) : Bool :=
  match c with
  | some a => decide (q < a)
  | none => false

def cellEqNum (c : Cell) (q : ℚ) : Bool :=
  match c with
  | some a => decide (a = q)
  | none => false

inductive CmpOp where
  | lt
  | gt
  | eq

/-- Coerce a parameter value to a number for an order comparison; comparing a
numeric series against a string raises `TypeError` in pandas. -/
def numOf : Value → Except String ℚ
  | .vNum q => .ok q
  | .vBool b => .ok (if b then 1 else 0)
  | .vStr _ => .error "TypeError"

/-- `series <op> value` elementwise; `==` against a non-number is all-false. -/
def cmpColVal (op : CmpOp) (col : List Cell) (v : Value) : Except String (List Bool) :=
  match op with
  | .lt =>
    match numOf v with
    | .error e => .error e
    | .ok q => .ok (col.map fun c => cellLt c q)
  | .gt =>
    match numOf v with
    | .error e => .error e
    | .ok q => .ok (col.map fun c => cellGt c q)
  | .eq =>
    .ok (col.map fun c =>
      match v with
      | .vNum q => cellEqNum c q
      | .vBool b => cellEqNum c (if b then 1 else 0)
      | .vStr _ => false)

/-- `seriesA < seriesB` elementwise; any NaN compares false. -/
def cmpLtCol (a b : List Cell) : List Bool :=
  List.zipWith (fun x y =>
    match x, y with
    | some u, some w => decide (u < w)
    | _, _ => false) a b

/-- The guard-enabling test `presKey in params and params[truthKey]`.  In all
guards but one the two keys coincide; `Strategy002Hyperopt`'s CDLHAMMER guard
tests presence of `'CDLHAMMER'` but reads `params['CDLHAMMER-enabled']`, so
the read can raise `KeyError`. -/
def guardCheck (p : Params) (presKey truthKey : String) : Except String Bool :=
  if (p.lookup presKey).isSome then
    match getParam p truthKey with
    | .error e => .error e
    | .ok v => .ok (truthyV v)
  else .ok false

/-- One guard:
`if presKey in params and params[truthKey]: conditions.append(df[col] <op> params[valKey])`,
returned as the (zero- or one-element) list of conditions it appends. -/
def guardCond (p : Params) (presKey truthKey valKey : String) (df : DataFrame)
    (col : String) (op : CmpOp) : Except String (List (List Bool)) :=
  match guardCheck p presKey truthKey with
  | .error e => .error e
  | .ok false => .ok []
  | .ok true =>
    match getCol df col with
    | .error e => .error e
    | .ok c =>
      match getParam p valKey with
      | .error e => .error e
      | .ok v =>
        match cmpColVal op c v with
        | .error e => .error e
        | .ok r => .ok [r]

/-- A trigger branch: label, and the two columns compared as `fst < snd`
when the selector equals the label. -/
abbrev Branch := String × String × String

/-- The cascade of `if params[selKey] == label: conditions.append(df[a] < df[b])`
tests, in source order, threading the accumulated condition list. -/
def branchConds (df : DataFrame) (v : Value) :
    List Branch → List (List Bool) → Except String (List (List Bool))
  | [], acc => .ok acc
  | br :: bs, acc =>
    if v = Value.vStr br.1 then
      match getCol df br.2.1 with
      | .error e => .error e
      | .ok a =>
        match getCol df br.2.2 with
        | .error e => .error e
        | .ok b => branchConds df v bs (acc ++ [cmpLtCol a b])
    else branchConds df v bs acc

/-- A trigger family: `if presKey in params:` followed by the branch cascade
dispatching on `params[selKey]`.  In the buy generators `presKey = selKey =
'trigger'`; in `BBRSIHyperOpt`'s sell generator the presence key is
`'sell-trigger'` while the selector read is `params['trigger']`. -/
def triggerCond (p : Params) (presKey selKey : String) (bs : List Branch)
    (df : DataFrame) : Except String (List (List Bool)) :=
  if (p.lookup presKey).isSome then
    match getParam p selKey with
    | .error e => .error e
    | .ok v => branchConds df v bs []
  else .ok []

/-- Shared buy trigger branches (identical in both hyperopt files). -/
def buyTriggerBranches : List Branch :=
  [("bb_lower1", "close", "bb_lowerband1"),
   ("bb_lower2", "close", "bb_lowerband2"),
   ("bb_lower3", "close", "bb_lowerband3"),
   ("bb_lower4", "close", "bb_lowerband4")]

/-- `BBRSIHyperOpt` sell trigger branches. -/
def bbrsiSellTriggerBranches : List Branch :=
  [("sell_bb_lower1", "close", "bb_lowerband1"),
   ("sell_bb_middle1", "close", "bb_middleband1"),
   ("sell_bb_upper1", "close", "bb_upperband1")]

/-- Condition list of `BBRSIHyperOpt.buy_strategy_generator`'s closure. -/
def bbrsi_buy_conditions (p : Params) (df : DataFrame) :
    Except String (List (List Bool)) :=
  match guardCond p "rsi-enabled" "rsi-enabled" "rsi-value" df "rsi" .lt with
  | .error e => .error e
  | .ok g =>
    match triggerCond p "trigger" "trigger" buyTriggerBranches df with
    | .error e => .error e
    | .ok t => .ok (g ++ t)

/-- The evaluator returned by `BBRSIHyperOpt.buy_strategy_generator(params)`. -/
def bbrsi_populate_buy_trend (p : Params) (df : DataFrame) :
    Except String DataFrame :=
  match bbrsi_buy_conditions p df with
  | .error e => .error e
  | .ok cs => .ok (markSignal df cs "buy")

/-- Condition list of `BBRSIHyperOpt.sell_strategy_generator`'s closure.  The
trigger family is guarded by `'sell-trigger' in params` but dispatches on
`params['trigger']`. -/
def bbrsi_sell_conditions (p : Params) (df : DataFrame) :
    Except String (List (List Bool)) :=
  match guardCond p "sell-rsi-enabled" "sell-rsi-enabled" "sell-rsi-value" df "rsi" .gt with
  | .error e => .error e
  | .ok g =>
    match triggerCond p "sell-trigger" "trigger" bbrsiSellTriggerBranches df with
    | .error e => .error e
    | .ok t => .ok (g ++ t)

/-- The evaluator returned by `BBRSIHyperOpt.sell_strategy_generator(params)`. -/
def bbrsi_populate_sell_trend (p : Params) (df : DataFrame) :
    Except String DataFrame :=
  match bbrsi_sell_conditions p df with
  | .error e => .error e
  | .ok cs => .ok (markSignal df cs "sell")

/-- Condition list of `Strategy002Hyperopt.buy_strategy_generator`'s closure.
The third guard is `if 'CDLHAMMER' in params and params['CDLHAMMER-enabled']:`,
with the presence test on a different key than the one read. -/
def s2_buy_conditions (p : Params) (df : DataFrame) :
    Except String (List (List Bool)) :=
  match guardCond p "rsi-enabled" "rsi-enabled" "rsi-value" df "rsi" .lt with
  | .error e => .error e
  | .ok g1 =>
    match guardCond p "slowk-enabled" "slowk-enabled" "slowk-value" df "slowk" .lt with
    | .error e => .error e
    | .ok g2 =>
      match guardCond p "CDLHAMMER" "CDLHAMMER-enabled" "CDLHAMMER-value" df "CDLHAMMER" .eq with
      | .error e => .error e
      | .ok g3 =>
        match triggerCond p "trigger" "trigger" buyTriggerBranches df with
        | .error e => .error e
        | .ok t => .ok (g1 ++ g2 ++ g3 ++ t)

/-- The evaluator returned by `Strategy002Hyperopt.buy_strategy_generator(params)`. -/
def s2_populate_buy_trend (p : Params) (df : DataFrame) :
    Except String DataFrame :=
  match s2_buy_conditions p df with
  | .error e => .error e
  | .ok cs => .ok (markSignal df cs "buy")

/-- Condition list of `Strategy002Hyperopt.sell_strategy_generator`'s closure.
Note that the guard enabled by `'sell-fisher-rsi-enabled'` compares the raw
`'rsi'` column, not `'fisher_rsi'`. -/
def s2_sell_conditions (p : Params) (df : DataFrame) :
    Except String (List (List Bool)) :=
  match guardCond p "sell-fisher-rsi-enabled" "sell-fisher-rsi-enabled"
      "sell-fisher-rsi-value" df "rsi" .gt with
  | .error e => .error e
  | .ok g1 =>
    match guardCond p "sell-sar-enabled" "sell-sar-enabled" "sell-sar-value" df "sar" .gt with
    | .error e => .error e
    | .ok g2 => .ok (g1 ++ g2)

/-- The evaluator returned by `Strategy002Hyperopt.sell_strategy_generator(params)`. -/
def s2_populate_sell_trend (p : Params) (df : DataFrame) :
    Except String DataFrame :=
  match s2_sell_conditions p df with
  | .error e => .error e
  | .ok cs => .ok (markSignal df cs "sell")

/-- The static reference buy rule `BBRSIHyperOpt.populate_buy_trend` (instance
method): `(df['rsi'] > 30) & (df['close'] < df['bb_lowerband'])`, column reads
in source (left-to-right) order. -/
def bbrsi_ref_buy (df : DataFrame) : Except String DataFrame :=
  match getCol df "rsi" with
  | .error e => .error e
  | .ok rsi =>
    match getCol df "close" with
    | .error e => .error e
    | .ok close =>
      match getCol df "bb_lowerband" with
      | .error e => .error e
      | .ok bbl =>
        .ok (locSet df (zipAnd (rsi.map fun c => cellGt c 30) (cmpLtCol close bbl)) "buy" 1)

/-- The static reference sell rule `BBRSIHyperOpt.populate_sell_trend`:
`df['close'] > df['bb_middleband']`. -/
def bbrsi_ref_sell (df : DataFrame) : Except String DataFrame :=
  match getCol df "close" with
  | .error e => .error e
  | .ok close =>
    match getCol df "bb_middleband" with
    | .error e => .error e
    | .ok bbm =>
      .ok (locSet df (cmpLtCol bbm close) "sell" 1)

/-- The static reference buy rule `Strategy002Hyperopt.populate_buy_trend`:
`(rsi < 30) & (slowk < 20) & (bb_lowerband > close) & (CDLHAMMER == 100)`. -/
def s2_ref_buy (df : DataFrame) : Except String DataFrame :=
  match getCol df "rsi" with
  | .error e => .error e
  | .ok rsi =>
    match getCol df "slowk" with
    | .error e => .error e
    | .ok slowk =>
      match getCol df "bb_lowerband" with
      | .error e => .error e
      | .ok bbl =>
        match getCol df "close" with
        | .error e => .error e
        | .ok close =>
          match getCol df "CDLHAMMER" with
          | .error e => .error e
          | .ok cdl =>
            .ok (locSet df
              (zipAnd (zipAnd (zipAnd (rsi.map fun c => cellLt c 30)
                (slowk.map fun c => cellLt c 20)) (cmpLtCol close bbl))
                (cdl.map fun c => cellEqNum c 100)) "buy" 1)

/-- The static reference sell rule `Strategy002Hyperopt.populate_sell_trend`:
`(sar > close) & (fisher_rsi > 0.3)`. -/
def s2_ref_sell (df : DataFrame) : Except String DataFrame :=
  match getCol df "sar" with
  | .error e => .error e
  | .ok sar =>
    match getCol df "close" with
    | .error e => .error e
    | .ok close =>
      match getCol df "fisher_rsi" with
      | .error e => .error e
      | .ok fisher =>
        .ok (locSet df (zipAnd (cmpLtCol close sar)
          (fisher.map fun c => cellGt c (3 / 10))) "sell" 1)

/-- Result of `qtpylib.bollinger_bands`: the three band columns. -/
structure BB where
  lower : List Cell
  mid : List Cell
  upper : List Cell

/-- The external indicator library (talib, qtpylib, numpy), §6 of the spec:
fixed pure functions whose numeric content is out of scope.  Each function is
applied to the dataframe in the state it has at the call site, as in the
source, where the frame is mutated between calls. -/
structure IndLib where
  RSI : DataFrame → List Cell
  STOCH_slowk : DataFrame → List Cell
  typical_price : DataFrame → List Cell
  bollinger_bands : List Cell → Nat → Nat → BB
  SAR : DataFrame → List Cell
  CDLHAMMER : DataFrame → List Cell
  fexp : ℚ → ℚ

/-- `BBRSIHyperOpt.populate_indicators`, statement by statement. -/
def bbrsi_populate_indicators (lib : IndLib) (df : DataFrame) : DataFrame :=
  let d1 := setW df "rsi" (lib.RSI df)
  let d2 := setW d1 "sell-rsi" (lib.RSI d1)
  let b1 := lib.bollinger_bands (lib.typical_price d2) 20 1
  let d3 := setW d2 "bb_lowerband1" b1.lower
  let d4 := setW d3 "bb_middleband1" b1.mid
  let d5 := setW d4 "bb_upperband1" b1.upper
  let b2 := lib.bollinger_bands (lib.typical_price d5) 20 2
  let d6 := setW d5 "bb_lowerband2" b2.lower
  let d7 := setW d6 "bb_middleband2" b2.mid
  let d8 := setW d7 "bb_upperband2" b2.upper
  let b3 := lib.bollinger_bands (lib.typical_price d8) 20 3
  let d9 := setW d8 "bb_lowerband3" b3.lower
  let d10 := setW d9 "bb_middleband3" b3.mid
  let d11 := setW d10 "bb_upperband3" b3.upper
  let b4 := lib.bollinger_bands (lib.typical_price d11) 20 4
  let d12 := setW d11 "bb_lowerband4" b4.lower
  let d13 := setW d12 "bb_middleband4" b4.mid
  setW d13 "bb_upperband4" b4.upper

/-- The inverse Fisher transform line of `Strategy002Hyperopt`:
`rsi = 0.1 * (df['rsi'] - 50); (exp(2*rsi) - 1) / (exp(2*rsi) + 1)`
elementwise, with NaN propagating. -/
def fisherOf (fexp : ℚ → ℚ) (rcol : List Cell) : List Cell :=
  rcol.map fun c =>
    c.bind fun r =>
      let x := (1 / 10 : ℚ) * (r - 50)
      some ((fexp (2 * x) - 1) / (fexp (2 * x) + 1))

/-- `Strategy002Hyperopt.populate_indicators`, statement by statement. -/
def s2_populate_indicators (lib : IndLib) (df : DataFrame) : DataFrame :=
  let d1 := setW df "slowk" (lib.STOCH_slowk df)
  let d2 := setW d1 "rsi" (lib.RSI d1)
  let d3 := setW d2 "fisher_rsi"
    (fisherOf lib.fexp ((d2.cols.lookup "rsi").getD (List.replicate d2.nrows none)))
  let b1 := lib.bollinger_bands (lib.typical_price d3) 20 1
  let d4 := setW d3 "bb_lowerband1" b1.lower
  let b2 := lib.bollinger_bands (lib.typical_price d4) 20 2
  let d5 := setW d4 "bb_lowerband2" b2.lower
  let b3 := lib.bollinger_bands (lib.typical_price d5) 20 3
  let d6 := setW d5 "bb_lowerband3" b3.lower
  let b4 := lib.bollinger_bands (lib.typical_price d6) 20 4
  let d7 := setW d6 "bb_lowerband4" b4.lower
  let d8 := setW d7 "sar" (lib.SAR d7)
  setW d8 "CDLHAMMER" (lib.CDLHAMMER d8)

/-- The columns `BBRSIHyperOpt.populate_indicators` adds. -/
def bbrsiIndicatorCols : List String :=
  ["rsi", "sell-rsi",
   "bb_lowerband1", "bb_middleband1", "bb_upperband1",
   "bb_lowerband2", "bb_middleband2", "bb_upperband2",
   "bb_lowerband3", "bb_middleband3", "bb_upperband3",
   "bb_lowerband4", "bb_middleband4", "bb_upperband4"]

/-- The columns `Strategy002Hyperopt.populate_indicators` adds. -/
def s2IndicatorCols : List String :=
  ["slowk", "rsi", "fisher_rsi",
   "bb_lowerband1", "bb_lowerband2", "bb_lowerband3", "bb_lowerband4",
   "sar", "CDLHAMMER"]

/-- Dimension names declared in `BBRSIHyperOpt.indicator_space` and
`sell_indicator_space`. -/
def bbrsiDims : List String :=
  ["rsi-value", "rsi-enabled", "trigger",
   "sell-rsi-value", "sell-rsi-enabled", "sell-trigger"]

/-- Dimension names declared in `Strategy002Hyperopt.indicator_space` and
`sell_indicator_space`. -/
def s2Dims : List String :=
  ["rsi-value", "slowk-value", "CDLHAMMER-value",
   "slowk-enabled", "rsi-enabled", "CDLHAMMER-enabled", "trigger",
   "sell-fisher-rsi-value", "sell-sar-value",
   "sell-fisher-rsi-enabled", "sell-sar-enabled"]

/-- Domain of the `'sell-trigger'` dimension in `BBRSIHyperOpt`. -/
def bbrsiSellTriggerDomain : List String :=
  ["sell_bb_lower1", "sell_bb_middle1", "sell_bb_upper1"]

/-- Well-formedness of a table: every column has `nrows` cells. -/
def WFdf (df : DataFrame) : Prop := ∀ e ∈ df.cols, e.2.length = df.nrows

instance (df : DataFrame) : Decidable (WFdf df) := by
  unfold WFdf; infer_instance

/-- The cell of column `name` at row `i`; an absent column reads as all-NaN. -/
def getCell (df : DataFrame) (name : String) (i : Nat) : Cell :=
  ((df.cols.lookup name).getD (List.replicate df.nrows none)).getD i none

/-- The frame contract of one signal-marking pass: row count kept, every
column but `sig` untouched, and `sig` holding `1` exactly where the mask is
true and its previous cell elsewhere. -/
def Frame (df df₂ : DataFrame) (sig : String) (mask : List Bool) : Prop :=
  df₂.nrows = df.nrows ∧
  (∀ n, n ≠ sig → df₂.cols.lookup n = df.cols.lookup n) ∧
  ∀ i, getCell df₂ sig i = if mask.getD i false then some 1 else getCell df sig i

/-- A two-row annotated table holding every column any generated evaluator
can read, used as a concrete test fixture. -/
def dfAll : DataFrame :=
  { nrows := 2,
    cols := [("close", [some 10, some 5]), ("rsi", [some 40, some 60]),
             ("slowk", [some 15, some 25]), ("sar", [some 12, some 3]),
             ("CDLHAMMER", [some 100, some 0]),
             ("bb_lowerband1", [some 8, some 8]), ("bb_lowerband2", [some 9, some 9]),
             ("bb_lowerband3", [some 9, some 9]), ("bb_lowerband4", [some 9, some 9]),
             ("bb_middleband1", [some 10, some 10]),
             ("bb_upperband1", [some 11, some 11])] }

/-- A small two-row table with a close and an rsi column. -/
def dfG : DataFrame :=
  { nrows := 2, cols := [("close", [some 10, some 5]), ("rsi", [some 40, some 60])] }

/-- `dfG` after one pass of the `rsi < 50` guard marking: row 0 bought. -/
def dfGmarked : DataFrame :=
  { nrows := 2,
    cols := [("close", [some 10, some 5]), ("rsi", [some 40, some 60]),
             ("buy", [some 1, none])] }

/-- A raw one-row OHLCV price table, before annotation. -/
def dfPrice : DataFrame :=
  { nrows := 1,
    cols := [("date", [some 0]), ("open", [some 10]), ("high", [some 11]),
             ("low", [some 9]), ("close", [some 10]), ("volume", [some 100])] }

/-- A concrete instantiation of the external indicator library, used to
evaluate the annotators on concrete inputs. -/
def lib0 : IndLib :=
  { RSI := fun d => List.replicate d.nrows (some 50),
    STOCH_slowk := fun d => List.replicate d.nrows (some 15),
    typical_price := fun d => List.replicate d.nrows (some 10),
    bollinger_bands := fun tp _ _ => { lower := tp, mid := tp, upper := tp },
    SAR := fun d => List.replicate d.nrows (some 9),
    CDLHAMMER := fun d => List.replicate d.nrows (some 100),
    fexp := fun q => q }

theorem lookup_setCol (cols : List (String × List Cell)) (n m : String) (c : List Cell) :
    (setCol cols m c).lookup n = if n = m then some c else cols.lookup n := by
  induction cols with
  | nil =>
    by_cases h : n = m
    · subst h; simp [setCol, List.lookup]
    · have hb : (n == m) = false := beq_eq_false_iff_ne.mpr h
      simp [setCol, List.lookup, hb, h]
  | cons e rest ih =>
    obtain ⟨a, b⟩ := e
    by_cases ham : a = m
    · subst ham
      by_cases hna : n = a
      · subst hna; simp [setCol, List.lookup]
      · have hb : (n == a) = false := beq_eq_false_iff_ne.mpr hna
        simp [setCol, List.lookup, hb, hna]
    · by_cases hna : n = a
      · subst hna
        have hnm : n ≠ m := ham
        simp [setCol, List.lookup, ham, hnm]
      · have hb : (n == a) = false := beq_eq_false_iff_ne.mpr hna
        simp [setCol, List.lookup, ham, hb, ih]

theorem lookup_mem {cols : List (String × List Cell)} {n : String} {c : List Cell}
    (h : cols.lookup n = some c) : (n, c) ∈ cols := by
  induction cols with
  | nil => simp [List.lookup] at h
  | cons e rest ih =>
    obtain ⟨a, b⟩ := e
    by_cases hna : n = a
    · subst hna
      simp [List.lookup] at h
      subst h
      exact List.mem_cons_self _ _
    · have hb : (n == a) = false := beq_eq_false_iff_ne.mpr hna
      simp [List.lookup, hb] at h
      exact List.mem_cons_of_mem _ (ih h)

theorem applyMask_idem (v : ℚ) : ∀ (m : List Bool) (old : List Cell),
    applyMask m (applyMask m old v) v = applyMask m old v
  | [], _ => rfl
  | _ :: _, [] => rfl
  | b :: ms, o :: os => by
    cases b <;> simp [applyMask, applyMask_idem v ms os]

theorem applyMask_getD (v : ℚ) : ∀ (m : List Bool) (old : List Cell),
    m.length ≤ old.length →
    ∀ i, (applyMask m old v).getD i none =
      if m.getD i false then some v else old.getD i none
  | [], old, _, i => by simp [applyMask]
  | _ :: _, [], h, _ => by simp at h
  | b :: ms, o :: os, h, i => by
    cases i with
    | zero => simp [applyMask]
    | succ j =>
      simp only [applyMask, List.getD_cons_succ]
      exact applyMask_getD v ms os (by simpa using h) j

theorem setCol_setCol (cols : List (String × List Cell)) (m : String) (c c' : List Cell) :
    setCol (setCol cols m c) m c' = setCol cols m c' := by
  induction cols with
  | nil => simp [setCol]
  | cons e rest ih =>
    obtain ⟨a, b⟩ := e
    by_cases ham : a = m <;> simp [setCol, ham, ih]

theorem locSet_locSet (df : DataFrame) (m : List Bool) (s : String) (v : ℚ) :
    locSet (locSet df m s v) m s v = locSet df m s v := by
  simp only [locSet, lookup_setCol, eq_self_iff_true, if_true, Option.getD_some]
  rw [applyMask_idem, setCol_setCol]

theorem getCol_locSet_ne {n s : String} (h : n ≠ s) (df : DataFrame)
    (m : List Bool) (v : ℚ) : getCol (locSet df m s v) n = getCol df n := by
  simp [getCol, locSet, lookup_setCol, h]

theorem zipAnd_length (a b : List Bool) : (zipAnd a b).length = min a.length b.length :=
  List.length_zipWith ..

theorem foldl_zipAnd_length (n : Nat) :
    ∀ (cs : List (List Bool)) (c : List Bool), c.length = n →
    (∀ x ∈ cs, x.length = n) → (cs.foldl zipAnd c).length = n := by
  intro cs
  induction cs with
  | nil => intro c h _; simpa using h
  | cons d cs ih =>
    intro c hc hall
    simp only [List.foldl_cons]
    refine ih _ ?_ (fun x hx => hall x (by simp [hx]))
    simp [zipAnd_length, hc, hall d (by simp)]

theorem markSignal_spec (df : DataFrame) (c : List Bool) (cs : List (List Bool))
    (sig : String) (hwf : WFdf df) (hlen : ∀ x ∈ c :: cs, x.length = df.nrows) :
    Frame df (markSignal df (c :: cs) sig) sig (andAll (c :: cs)) := by
  have hmlen : (andAll (c :: cs)).length = df.nrows :=
    foldl_zipAnd_length _ _ _ (hlen c (by simp)) (fun x hx => hlen x (by simp [hx]))
  have holdlen :
      ((df.cols.lookup sig).getD (List.replicate df.nrows none)).length = df.nrows := by
    cases hl : df.cols.lookup sig with
    | none => simp
    | some cc => simpa using hwf (sig, cc) (lookup_mem hl)
  refine ⟨rfl, ?_, ?_⟩
  · intro n hn
    simp [markSignal, locSet, lookup_setCol, hn]
  · intro i
    simp only [markSignal, locSet, getCell, lookup_setCol, eq_self_iff_true, if_true,
      Option.getD_some]
    rw [applyMask_getD _ _ _ (le_of_eq (hmlen.trans holdlen.symm))]

theorem guardCheck_same (p : Params) (k : String) :
    guardCheck p k k = .ok (truthy (p.lookup k)) := by
  cases hl : p.lookup k with
  | none => simp [guardCheck, hl, truthy]
  | some v => simp [guardCheck, hl, getParam, truthy]

theorem guardCond_not_enabled {p : Params} {k : String}
    (h : truthy (p.lookup k) = false) (vk : String) (df : DataFrame)
    (col : String) (op : CmpOp) : guardCond p k k vk df col op = .ok [] := by
  simp [guardCond, guardCheck_same, h]

theorem guardCond_pres_none {p : Params} {pk : String} (h : p.lookup pk = none)
    (tk vk : String) (df : DataFrame) (col : String) (op : CmpOp) :
    guardCond p pk tk vk df col op = .ok [] := by
  simp [guardCond, guardCheck, h]

theorem triggerCond_pres_none {p : Params} {pk : String} (h : p.lookup pk = none)
    (sk : String) (bs : List Branch) (df : DataFrame) :
    triggerCond p pk sk bs df = .ok [] := by
  simp [triggerCond, h]

theorem getCol_ok {df : DataFrame} {n : String}
    (h : (df.cols.lookup n).isSome = true) : ∃ c, getCol df n = .ok c := by
  cases hl : df.cols.lookup n with
  | none => rw [hl] at h; simp at h
  | some c => exact ⟨c, by simp [getCol, hl]⟩

theorem cmpColVal_ok (op : CmpOp) (col : List Cell) (q : ℚ) :
    ∃ r, cmpColVal op col (Value.vNum q) = .ok r := by
  cases op
  · exact ⟨_, rfl⟩
  · exact ⟨_, rfl⟩
  · exact ⟨_, rfl⟩

theorem guardCond_ok (op : CmpOp) {p : Params} {pk tk vk : String} {df : DataFrame}
    {col : String}
    (h : (p.lookup pk).isSome = true →
      ∃ v, p.lookup tk = some v ∧
        (truthyV v = true → ∃ q, p.lookup vk = some (Value.vNum q)))
    (hcol : (df.cols.lookup col).isSome = true) :
    ∃ l, guardCond p pk tk vk df col op = .ok l := by
  by_cases hp : (p.lookup pk).isSome = true
  · obtain ⟨v, hv, hval⟩ := h hp
    cases ht : truthyV v with
    | true =>
      obtain ⟨q, hq⟩ := hval ht
      obtain ⟨c, hc⟩ := getCol_ok hcol
      obtain ⟨r, hr⟩ := cmpColVal_ok op c q
      exact ⟨[r], by simp [guardCond, guardCheck, hp, getParam, hv, ht, hc, hq, hr]⟩
    | false =>
      exact ⟨[], by simp [guardCond, guardCheck, hp, getParam, hv, ht]⟩
  · rw [Bool.not_eq_true] at hp
    exact ⟨[], by simp [guardCond, guardCheck, hp]⟩

theorem branchConds_ok {df : DataFrame} (v : Value) :
    ∀ (bs : List Branch),
    (∀ br ∈ bs, ((df.cols.lookup br.2.1).isSome = true) ∧
      ((df.cols.lookup br.2.2).isSome = true)) →
    ∀ acc, ∃ l, branchConds df v bs acc = .ok l := by
  intro bs
  induction bs with
  | nil => intro _ acc; exact ⟨acc, rfl⟩
  | cons br bs ih =>
    intro h acc
    by_cases hv : v = Value.vStr br.1
    · obtain ⟨a, ha⟩ := getCol_ok (h br (by simp)).1
      obtain ⟨b, hb⟩ := getCol_ok (h br (by simp)).2
      obtain ⟨l, hl⟩ := ih (fun x hx => h x (by simp [hx])) (acc ++ [cmpLtCol a b])
      refine ⟨l, ?_⟩
      simp only [branchConds, if_pos hv, ha, hb]
      exact hl
    · obtain ⟨l, hl⟩ := ih (fun x hx => h x (by simp [hx])) acc
      refine ⟨l, ?_⟩
      simp only [branchConds, if_neg hv]
      exact hl

theorem triggerCond_ok {p : Params} {pk sk : String} {bs : List Branch} {df : DataFrame}
    (hsel : (p.lookup pk).isSome = true → (p.lookup sk).isSome = true)
    (hcols : ∀ br ∈ bs, ((df.cols.lookup br.2.1).isSome = true) ∧
      ((df.cols.lookup br.2.2).isSome = true)) :
    ∃ l, triggerCond p pk sk bs df = .ok l := by
  by_cases hp : (p.lookup pk).isSome = true
  · have hs' := hsel hp
    cases hs : p.lookup sk with
    | none => rw [hs] at hs'; simp at hs'
    | some v =>
      obtain ⟨l, hl⟩ := branchConds_ok v bs hcols []
      exact ⟨l, by simp [triggerCond, hp, getParam, hs, hl]⟩
  · rw [Bool.not_eq_true] at hp
    exact ⟨[], by simp [triggerCond, hp]⟩

theorem branchConds_locSet (df : DataFrame) (m : List Bool) (s : String) (v : ℚ)
    (w : Value) : ∀ (bs : List Branch), (∀ br ∈ bs, br.2.1 ≠ s ∧ br.2.2 ≠ s) →
    ∀ acc, branchConds (locSet df m s v) w bs acc = branchConds df w bs acc := by
  intro bs
  induction bs with
  | nil => intro _ _; rfl
  | cons br bs ih =>
    intro h acc
    by_cases hw : w = Value.vStr br.1
    · simp only [branchConds, if_pos hw,
        getCol_locSet_ne (h br (by simp)).1, getCol_locSet_ne (h br (by simp)).2]
      cases getCol df br.2.1 with
      | error e => rfl
      | ok a =>
        cases getCol df br.2.2 with
        | error e => rfl
        | ok b => exact ih (fun x hx => h x (by simp [hx])) _
    · simp only [branchConds, if_neg hw]
      exact ih (fun x hx => h x (by simp [hx])) acc

theorem triggerCond_locSet {s : String} {bs : List Branch}
    (h : ∀ br ∈ bs, br.2.1 ≠ s ∧ br.2.2 ≠ s) (p : Params) (pk sk : String)
    (df : DataFrame) (m : List Bool) (v : ℚ) :
    triggerCond p pk sk bs (locSet df m s v) = triggerCond p pk sk bs df := by
  unfold triggerCond
  by_cases hp : (p.lookup pk).isSome = true
  · simp only [hp, if_true]
    cases getParam p sk with
    | error e => rfl
    | ok w => exact branchConds_locSet df m s v w bs h []
  · rw [Bool.not_eq_true] at hp
    simp [hp]

theorem guardCond_locSet {col s : String} (h : col ≠ s) (p : Params)
    (pk tk vk : String) (df : DataFrame) (m : List Bool) (v : ℚ) (op : CmpOp) :
    guardCond p pk tk vk (locSet df m s v) col op = guardCond p pk tk vk df col op := by
  simp only [guardCond, getCol_locSet_ne h]

theorem markSignal_idem (df : DataFrame) (cs : List (List Bool)) (sig : String) :
    markSignal (markSignal df cs sig) cs sig = markSignal df cs sig := by
  cases cs with
  | nil => rfl
  | cons c cs => exact locSet_locSet df (andAll (c :: cs)) sig 1

theorem lookup_none_of_keys {p : Params} {L : List String}
    (h : ∀ kv ∈ p, kv.1 ∈ L) {k : String} (hk : k ∉ L) : p.lookup k = none := by
  induction p with
  | nil => rfl
  | cons e rest ih =>
    obtain ⟨a, v⟩ := e
    have ha : a ∈ L := h (a, v) (by simp)
    have hka : (k == a) = false :=
      beq_eq_false_iff_ne.mpr (fun he => hk (he ▸ ha))
    simp only [List.lookup, hka]
    exact ih (fun kv hkv => h kv (by simp [hkv]))

theorem bbrsi_buy_conditions_locSet (p : Params) (df : DataFrame)
    (m : List Bool) (v : ℚ) :
    bbrsi_buy_conditions p (locSet df m "buy" v) = bbrsi_buy_conditions p df := by
  simp only [bbrsi_buy_conditions,
    guardCond_locSet (show ("rsi" : String) ≠ "buy" by decide),
    triggerCond_locSet (show ∀ br ∈ buyTriggerBranches,
      br.2.1 ≠ "buy" ∧ br.2.2 ≠ "buy" by decide)]

theorem bbrsi_sell_conditions_locSet (p : Params) (df : DataFrame)
    (m : List Bool) (v : ℚ) :
    bbrsi_sell_conditions p (locSet df m "sell" v) = bbrsi_sell_conditions p df := by
  simp only [bbrsi_sell_conditions,
    guardCond_locSet (show ("rsi" : String) ≠ "sell" by decide),
    triggerCond_locSet (show ∀ br ∈ bbrsiSellTriggerBranches,
      br.2.1 ≠ "sell" ∧ br.2.2 ≠ "sell" by decide)]

theorem s2_buy_conditions_locSet (p : Params) (df : DataFrame)
    (m : List Bool) (v : ℚ) :
    s2_buy_conditions p (locSet df m "buy" v) = s2_buy_conditions p df := by
  simp only [s2_buy_conditions,
    guardCond_locSet (show ("rsi" : String) ≠ "buy" by decide),
    guardCond_locSet (show ("slowk" : String) ≠ "buy" by decide),
    guardCond_locSet (show ("CDLHAMMER" : String) ≠ "buy" by decide),
    triggerCond_locSet (show ∀ br ∈ buyTriggerBranches,
      br.2.1 ≠ "buy" ∧ br.2.2 ≠ "buy" by decide)]

theorem s2_sell_conditions_locSet (p : Params) (df : DataFrame)
    (m : List Bool) (v : ℚ) :
    s2_sell_conditions p (locSet df m "sell" v) = s2_sell_conditions p df := by
  simp only [s2_sell_conditions,
    guardCond_locSet (show ("rsi" : String) ≠ "sell" by decide),
    guardCond_locSet (show ("sar" : String) ≠ "sell" by decide)]

theorem bbrsi_buy_conditions_markSignal (p : Params) (df : DataFrame)
    (cs : List (List Bool)) :
    bbrsi_buy_conditions p (markSignal df cs "buy") = bbrsi_buy_conditions p df := by
  cases cs with
  | nil => rfl
  | cons c cs => exact bbrsi_buy_conditions_locSet p df (andAll (c :: cs)) 1

theorem bbrsi_sell_conditions_markSignal (p : Params) (df : DataFrame)
    (cs : List (List Bool)) :
    bbrsi_sell_conditions p (markSignal df cs "sell") = bbrsi_sell_conditions p df := by
  cases cs with
  | nil => rfl
  | cons c cs => exact bbrsi_sell_conditions_locSet p df (andAll (c :: cs)) 1

theorem s2_buy_conditions_markSignal (p : Params) (df : DataFrame)
    (cs : List (List Bool)) :
    s2_buy_conditions p (markSignal df cs "buy") = s2_buy_conditions p df := by
  cases cs with
  | nil => rfl
  | cons c cs => exact s2_buy_conditions_locSet p df (andAll (c :: cs)) 1

theorem s2_sell_conditions_markSignal (p : Params) (df : DataFrame)
    (cs : List (List Bool)) :
    s2_sell_conditions p (markSignal df cs "sell") = s2_sell_conditions p df := by
  cases cs with
  | nil => rfl
  | cons c cs => exact s2_sell_conditions_locSet p df (andAll (c :: cs)) 1

/-- C1: the claim states that each guard condition is appended iff the
guard's enable key is present and true, and in particular that
`Strategy002Hyperopt`'s CDLHAMMER guard fires exactly when
`'CDLHAMMER-enabled'` is present and true.  The code instead tests presence
of the key `'CDLHAMMER'`: with `'CDLHAMMER-enabled'` present and true (and
`'CDLHAMMER'` absent, as in every assignment drawn from the declared space)
no condition is appended, and with `'CDLHAMMER'` present but
`'CDLHAMMER-enabled'` absent the evaluator raises `KeyError`. -/
theorem C1_cdlhammer_guard_presence_bug :
    ([("CDLHAMMER-enabled", Value.vBool true), ("CDLHAMMER-value", Value.vNum 100)] :
        Params).lookup "CDLHAMMER-enabled" = some (Value.vBool true) ∧
    s2_buy_conditions
      [("CDLHAMMER-enabled", Value.vBool true), ("CDLHAMMER-value", Value.vNum 100)]
      dfAll = .ok [] ∧
    s2_buy_conditions [("CDLHAMMER", Value.vNum 100)] dfAll =
      .error "KeyError: CDLHAMMER-enabled" :=
  ⟨rfl, rfl, rfl⟩

/-- C3: the claim states that whenever the trigger-selecting key is present
with a value from the declared categorical domain, exactly one trigger
branch condition is appended, including for `BBRSIHyperOpt`'s sell evaluator
with domain key `'sell-trigger'`.  The sell generator dispatches on
`params['trigger']` instead: with `'sell-trigger'` holding the domain value
`'sell_bb_middle1'` zero branches are appended.  The buy generator, whose
presence and selector keys agree, does append exactly one branch. -/
theorem C3_sell_trigger_dispatch_bug :
    ([("sell-trigger", Value.vStr "sell_bb_middle1"),
      ("trigger", Value.vStr "bb_lower2")] : Params).lookup "sell-trigger" =
      some (Value.vStr "sell_bb_middle1") ∧
    "sell_bb_middle1" ∈ bbrsiSellTriggerDomain ∧
    bbrsi_sell_conditions
      [("sell-trigger", Value.vStr "sell_bb_middle1"),
       ("trigger", Value.vStr "bb_lower2")] dfAll = .ok [] ∧
    bbrsi_buy_conditions [("trigger", Value.vStr "bb_lower2")] dfAll =
      .ok [[false, true]] :=
  ⟨rfl, by decide, rfl, rfl⟩

/-- C4: the claim states that every column read by the static reference
evaluators is produced by the same strategy's `populate_indicators`, naming
`'bb_lowerband'` and `'bb_middleband'`.  The annotators only produce the
suffixed bands `bb_lowerband1..4` (and middle/upper variants), so three of
the four reference rules fail with a `KeyError` on any freshly annotated
price table; only `Strategy002Hyperopt`'s reference sell rule succeeds. -/
theorem C4_reference_rules_read_missing_columns :
    (bbrsi_populate_indicators lib0 dfPrice).cols.lookup "bb_lowerband" = none ∧
    bbrsi_ref_buy (bbrsi_populate_indicators lib0 dfPrice) =
      .error "KeyError: bb_lowerband" ∧
    bbrsi_ref_sell (bbrsi_populate_indicators lib0 dfPrice) =
      .error "KeyError: bb_middleband" ∧
    s2_ref_buy (s2_populate_indicators lib0 dfPrice) =
      .error "KeyError: bb_lowerband" ∧
    (∃ r, s2_ref_sell (s2_populate_indicators lib0 dfPrice) = .ok r) :=
  ⟨rfl, rfl, rfl, rfl, ⟨_, rfl⟩⟩

/-- C6: for every parameter assignment over the declared dimension names in
which every guard's enable key is absent or false and no trigger-selecting
key is present, each of the four generated evaluators returns its input
table unchanged — no row is marked and no error is raised. -/
theorem C6_all_disabled_identity (p : Params) (df : DataFrame)
    (hkeys : ∀ kv ∈ p, kv.1 ∈ bbrsiDims ∨ kv.1 ∈ s2Dims)
    (h1 : truthy (p.lookup "rsi-enabled") = false)
    (h2 : truthy (p.lookup "sell-rsi-enabled") = false)
    (h3 : truthy (p.lookup "slowk-enabled") = false)
    (_h4 : truthy (p.lookup "CDLHAMMER-enabled") = false)
    (h5 : truthy (p.lookup "sell-fisher-rsi-enabled") = false)
    (h6 : truthy (p.lookup "sell-sar-enabled") = false)
    (h7 : p.lookup "trigger" = none)
    (h8 : p.lookup "sell-trigger" = none) :
    bbrsi_populate_buy_trend p df = .ok df ∧
    bbrsi_populate_sell_trend p df = .ok df ∧
    s2_populate_buy_trend p df = .ok df ∧
    s2_populate_sell_trend p df = .ok df := by
  have hcdl : p.lookup "CDLHAMMER" = none :=
    lookup_none_of_keys (fun kv hkv => List.mem_append.mpr (hkeys kv hkv))
      (by decide : "CDLHAMMER" ∉ bbrsiDims ++ s2Dims)
  refine ⟨?_, ?_, ?_, ?_⟩
  · simp [bbrsi_populate_buy_trend, bbrsi_buy_conditions,
      guardCond_not_enabled h1, triggerCond_pres_none h7, markSignal]
  · simp [bbrsi_populate_sell_trend, bbrsi_sell_conditions,
      guardCond_not_enabled h2, triggerCond_pres_none h8, markSignal]
  · simp [s2_populate_buy_trend, s2_buy_conditions,
      guardCond_not_enabled h1, guardCond_not_enabled h3,
      guardCond_pres_none hcdl, triggerCond_pres_none h7, markSignal]
  · simp [s2_populate_sell_trend, s2_sell_conditions,
      guardCond_not_enabled h5, guardCond_not_enabled h6, markSignal]

/-- Witness for C6 at a concrete assignment (a declared value key present,
every enable key absent, no trigger key) and the concrete table `dfAll`. -/
theorem C6_witness :
    bbrsi_populate_buy_trend [("rsi-value", Value.vNum 30)] dfAll = .ok dfAll ∧
    bbrsi_populate_sell_trend [("rsi-value", Value.vNum 30)] dfAll = .ok dfAll ∧
    s2_populate_buy_trend [("rsi-value", Value.vNum 30)] dfAll = .ok dfAll ∧
    s2_populate_sell_trend [("rsi-value", Value.vNum 30)] dfAll = .ok dfAll :=
  C6_all_disabled_identity [("rsi-value", Value.vNum 30)] dfAll (by decide)
    rfl rfl rfl rfl rfl rfl rfl rfl

/-- C7: each generated evaluator is idempotent: if one application of the
evaluator succeeds with output table `df₂`, applying the same evaluator to
`df₂` succeeds and returns `df₂` itself (in particular the signal column is
unchanged by the second pass), because the conditions never read the signal
column and marking only sets `1`. -/
theorem C7_evaluators_idempotent :
    (∀ (p : Params) (df df₂ : DataFrame),
      bbrsi_populate_buy_trend p df = .ok df₂ →
      bbrsi_populate_buy_trend p df₂ = .ok df₂) ∧
    (∀ (p : Params) (df df₂ : DataFrame),
      bbrsi_populate_sell_trend p df = .ok df₂ →
      bbrsi_populate_sell_trend p df₂ = .ok df₂) ∧
    (∀ (p : Params) (df df₂ : DataFrame),
      s2_populate_buy_trend p df = .ok df₂ →
      s2_populate_buy_trend p df₂ = .ok df₂) ∧
    (∀ (p : Params) (df df₂ : DataFrame),
      s2_populate_sell_trend p df = .ok df₂ →
      s2_populate_sell_trend p df₂ = .ok df₂) := by
  refine ⟨?_, ?_, ?_, ?_⟩
  · intro p df df₂ h
    cases hok : bbrsi_buy_conditions p df with
    | error e => rw [bbrsi_populate_buy_trend, hok] at h; cases h
    | ok cs =>
      rw [bbrsi_populate_buy_trend, hok] at h
      injection h with h'
      subst h'
      rw [bbrsi_populate_buy_trend, bbrsi_buy_conditions_markSignal, hok]
      exact congrArg Except.ok (markSignal_idem df cs "buy")
  · intro p df df₂ h
    cases hok : bbrsi_sell_conditions p df with
    | error e => rw [bbrsi_populate_sell_trend, hok] at h; cases h
    | ok cs =>
      rw [bbrsi_populate_sell_trend, hok] at h
      injection h with h'
      subst h'
      rw [bbrsi_populate_sell_trend, bbrsi_sell_conditions_markSignal, hok]
      exact congrArg Except.ok (markSignal_idem df cs "sell")
  · intro p df df₂ h
    cases hok : s2_buy_conditions p df with
    | error e => rw [s2_populate_buy_trend, hok] at h; cases h
    | ok cs =>
      rw [s2_populate_buy_trend, hok] at h
      injection h with h'
      subst h'
      rw [s2_populate_buy_trend, s2_buy_conditions_markSignal, hok]
      exact congrArg Except.ok (markSignal_idem df cs "buy")
  · intro p df df₂ h
    cases hok : s2_sell_conditions p df with
    | error e => rw [s2_populate_sell_trend, hok] at h; cases h
    | ok cs =>
      rw [s2_populate_sell_trend, hok] at h
      injection h with h'
      subst h'
      rw [s2_populate_sell_trend, s2_sell_conditions_markSignal, hok]
      exact congrArg Except.ok (markSignal_idem df cs "sell")

/-- Witness for C7: one concrete first pass of the `rsi < 50` guard marks
row 0 of `dfG`, and the second pass returns the marked table unchanged. -/
theorem C7_witness :
    bbrsi_populate_buy_trend
      [("rsi-enabled", Value.vBool true), ("rsi-value", Value.vNum 50)] dfG =
      .ok dfGmarked ∧
    bbrsi_populate_buy_trend
      [("rsi-enabled", Value.vBool true), ("rsi-value", Value.vNum 50)] dfGmarked =
      .ok dfGmarked :=
  ⟨rfl, C7_evaluators_idempotent.1
    [("rsi-enabled", Value.vBool true), ("rsi-value", Value.vNum 50)]
    dfG dfGmarked rfl⟩

/-- C5: when a generated evaluator succeeds and its built condition list is
non-empty, the output table keeps the row count, leaves every column other
than the signal column untouched, and holds the mark `1` in the signal
column exactly on the rows where the elementwise AND of all appended
conditions is true, every other row keeping its previous signal cell (never
an explicit false). -/
theorem C5_conjunction_marks_signal_frame :
    (∀ (p : Params) (df : DataFrame) (cs : List (List Bool)) (df₂ : DataFrame),
      WFdf df → bbrsi_buy_conditions p df = .ok cs →
      (∀ c ∈ cs, c.length = df.nrows) → cs ≠ [] →
      bbrsi_populate_buy_trend p df = .ok df₂ →
      Frame df df₂ "buy" (andAll cs)) ∧
    (∀ (p : Params) (df : DataFrame) (cs : List (List Bool)) (df₂ : DataFrame),
      WFdf df → bbrsi_sell_conditions p df = .ok cs →
      (∀ c ∈ cs, c.length = df.nrows) → cs ≠ [] →
      bbrsi_populate_sell_trend p df = .ok df₂ →
      Frame df df₂ "sell" (andAll cs)) ∧
    (∀ (p : Params) (df : DataFrame) (cs : List (List Bool)) (df₂ : DataFrame),
      WFdf df → s2_buy_conditions p df = .ok cs →
      (∀ c ∈ cs, c.length = df.nrows) → cs ≠ [] →
      s2_populate_buy_trend p df = .ok df₂ →
      Frame df df₂ "buy" (andAll cs)) ∧
    (∀ (p : Params) (df : DataFrame) (cs : List (List Bool)) (df₂ : DataFrame),
      WFdf df → s2_sell_conditions p df = .ok cs →
      (∀ c ∈ cs, c.length = df.nrows) → cs ≠ [] →
      s2_populate_sell_trend p df = .ok df₂ →
      Frame df df₂ "sell" (andAll cs)) := by
  refine ⟨?_, ?_, ?_, ?_⟩
  · intro p df cs df₂ hwf hok hlen hne hev
    cases cs with
    | nil => exact absurd rfl hne
    | cons c cs' =>
      rw [bbrsi_populate_buy_trend, hok] at hev
      injection hev with hev'
      subst hev'
      exact markSignal_spec df c cs' "buy" hwf hlen
  · intro p df cs df₂ hwf hok hlen hne hev
    cases cs with
    | nil => exact absurd rfl hne
    | cons c cs' =>
      rw [bbrsi_populate_sell_trend, hok] at hev
      injection hev with hev'
      subst hev'
      exact markSignal_spec df c cs' "sell" hwf hlen
  · intro p df cs df₂ hwf hok hlen hne hev
    cases cs with
    | nil => exact absurd rfl hne
    | cons c cs' =>
      rw [s2_populate_buy_trend, hok] at hev
      injection hev with hev'
      subst hev'
      exact markSignal_spec df c cs' "buy" hwf hlen
  · intro p df cs df₂ hwf hok hlen hne hev
    cases cs with
    | nil => exact absurd rfl hne
    | cons c cs' =>
      rw [s2_populate_sell_trend, hok] at hev
      injection hev with hev'
      subst hev'
      exact markSignal_spec df c cs' "sell" hwf hlen

/-- Witness for C5 at a concrete assignment enabling the rsi guard on `dfG`:
only row 0 satisfies `rsi < 50`, so row 0 is marked and everything else is
untouched. -/
theorem C5_witness : Frame dfG dfGmarked "buy" (andAll [[true, false]]) :=
  C5_conjunction_marks_signal_frame.1
    [("rsi-enabled", Value.vBool true), ("rsi-value", Value.vNum 50)]
    dfG [[true, false]] dfGmarked (by decide) rfl (by decide) (by decide) rfl

/-- C2 counterexample: the claim states that generated evaluators never
raise on absent assignment keys, naming in particular `BBRSIHyperOpt`'s sell
evaluator with `'sell-trigger'` present and `'trigger'` absent.  Exactly
that input raises `KeyError: trigger`. -/
theorem C2_counterexample :
    (([("sell-trigger", Value.vStr "sell_bb_lower1")] : Params).lookup
      "sell-trigger").isSome = true ∧
    ([("sell-trigger", Value.vStr "sell_bb_lower1")] : Params).lookup "trigger" =
      none ∧
    bbrsi_populate_sell_trend [("sell-trigger", Value.vStr "sell_bb_lower1")] dfAll =
      .error "KeyError: trigger" :=
  ⟨rfl, rfl, rfl⟩

/-- C2 (amended): lookups that sit behind an `in params` presence test
tolerate absence of the tested key, so unknown keys and the other side's
keys are ignored; but every key read directly after a passed presence test
must be present.  Under those conditions — each guard's value key present
when its enable test passes, `'CDLHAMMER-enabled'` present when
`'CDLHAMMER'` is, `'trigger'` present when `'sell-trigger'` is — all four
generated evaluators succeed on a table carrying the readable columns. -/
theorem C2_no_keyerror_when_guarded_lookups_present (p : Params) (df : DataFrame)
    (hcRsi : (df.cols.lookup "rsi").isSome = true)
    (hcClose : (df.cols.lookup "close").isSome = true)
    (hcB1 : (df.cols.lookup "bb_lowerband1").isSome = true)
    (hcB2 : (df.cols.lookup "bb_lowerband2").isSome = true)
    (hcB3 : (df.cols.lookup "bb_lowerband3").isSome = true)
    (hcB4 : (df.cols.lookup "bb_lowerband4").isSome = true)
    (hcM1 : (df.cols.lookup "bb_middleband1").isSome = true)
    (hcU1 : (df.cols.lookup "bb_upperband1").isSome = true)
    (hcSlowk : (df.cols.lookup "slowk").isSome = true)
    (hcCdl : (df.cols.lookup "CDLHAMMER").isSome = true)
    (hcSar : (df.cols.lookup "sar").isSome = true)
    (hRsi : truthy (p.lookup "rsi-enabled") = true →
      ∃ q, p.lookup "rsi-value" = some (Value.vNum q))
    (hSlowk : truthy (p.lookup "slowk-enabled") = true →
      ∃ q, p.lookup "slowk-value" = some (Value.vNum q))
    (hSellRsi : truthy (p.lookup "sell-rsi-enabled") = true →
      ∃ q, p.lookup "sell-rsi-value" = some (Value.vNum q))
    (hFisher : truthy (p.lookup "sell-fisher-rsi-enabled") = true →
      ∃ q, p.lookup "sell-fisher-rsi-value" = some (Value.vNum q))
    (hSar : truthy (p.lookup "sell-sar-enabled") = true →
      ∃ q, p.lookup "sell-sar-value" = some (Value.vNum q))
    (hCdl : (p.lookup "CDLHAMMER").isSome = true →
      ∃ v, p.lookup "CDLHAMMER-enabled" = some v ∧
        (truthyV v = true → ∃ q, p.lookup "CDLHAMMER-value" = some (Value.vNum q)))
    (hSellTrig : (p.lookup "sell-trigger").isSome = true →
      (p.lookup "trigger").isSome = true) :
    (∃ r, bbrsi_populate_buy_trend p df = .ok r) ∧
    (∃ r, bbrsi_populate_sell_trend p df = .ok r) ∧
    (∃ r, s2_populate_buy_trend p df = .ok r) ∧
    (∃ r, s2_populate_sell_trend p df = .ok r) := by
  have conv : ∀ ek vk : String,
      (truthy (p.lookup ek) = true → ∃ q, p.lookup vk = some (Value.vNum q)) →
      ((p.lookup ek).isSome = true →
        ∃ v, p.lookup ek = some v ∧
          (truthyV v = true → ∃ q, p.lookup vk = some (Value.vNum q))) := by
    intro ek vk h hs
    cases hl : p.lookup ek with
    | none => rw [hl] at hs; simp at hs
    | some v =>
      refine ⟨v, rfl, fun htv => h ?_⟩
      rw [hl]
      simpa [truthy] using htv
  have hBuyBranches : ∀ br ∈ buyTriggerBranches,
      ((df.cols.lookup br.2.1).isSome = true) ∧
      ((df.cols.lookup br.2.2).isSome = true) := by
    intro br hbr
    simp only [buyTriggerBranches, List.mem_cons, List.not_mem_nil, or_false] at hbr
    rcases hbr with rfl | rfl | rfl | rfl
    · exact ⟨hcClose, hcB1⟩
    · exact ⟨hcClose, hcB2⟩
    · exact ⟨hcClose, hcB3⟩
    · exact ⟨hcClose, hcB4⟩
  have hSellBranches : ∀ br ∈ bbrsiSellTriggerBranches,
      ((df.cols.lookup br.2.1).isSome = true) ∧
      ((df.cols.lookup br.2.2).isSome = true) := by
    intro br hbr
    simp only [bbrsiSellTriggerBranches, List.mem_cons, List.not_mem_nil,
      or_false] at hbr
    rcases hbr with rfl | rfl | rfl
    · exact ⟨hcClose, hcB1⟩
    · exact ⟨hcClose, hcM1⟩
    · exact ⟨hcClose, hcU1⟩
  refine ⟨?_, ?_, ?_, ?_⟩
  · obtain ⟨l1, e1⟩ := guardCond_ok CmpOp.lt (conv _ _ hRsi) hcRsi
    obtain ⟨l2, e2⟩ := triggerCond_ok
      (show (p.lookup "trigger").isSome = true → (p.lookup "trigger").isSome = true from fun h => h) hBuyBranches
    exact ⟨markSignal df (l1 ++ l2) "buy",
      by simp only [bbrsi_populate_buy_trend, bbrsi_buy_conditions, e1, e2]⟩
  · obtain ⟨l1, e1⟩ := guardCond_ok CmpOp.gt (conv _ _ hSellRsi) hcRsi
    obtain ⟨l2, e2⟩ := triggerCond_ok hSellTrig hSellBranches
    exact ⟨markSignal df (l1 ++ l2) "sell",
      by simp only [bbrsi_populate_sell_trend, bbrsi_sell_conditions, e1, e2]⟩
  · obtain ⟨l1, e1⟩ := guardCond_ok CmpOp.lt (conv _ _ hRsi) hcRsi
    obtain ⟨l2, e2⟩ := guardCond_ok CmpOp.lt (conv _ _ hSlowk) hcSlowk
    obtain ⟨l3, e3⟩ := guardCond_ok CmpOp.eq hCdl hcCdl
    obtain ⟨l4, e4⟩ := triggerCond_ok
      (show (p.lookup "trigger").isSome = true → (p.lookup "trigger").isSome = true from fun h => h) hBuyBranches
    exact ⟨markSignal df (l1 ++ l2 ++ l3 ++ l4) "buy",
      by simp only [s2_populate_buy_trend, s2_buy_conditions, e1, e2, e3, e4]⟩
  · obtain ⟨l1, e1⟩ := guardCond_ok CmpOp.gt (conv _ _ hFisher) hcRsi
    obtain ⟨l2, e2⟩ := guardCond_ok CmpOp.gt (conv _ _ hSar) hcSar
    exact ⟨markSignal df (l1 ++ l2) "sell",
      by simp only [s2_populate_sell_trend, s2_sell_conditions, e1, e2]⟩

/-- Witness for C2 (amended) at the empty assignment and the table `dfAll`:
all key-side hypotheses hold vacuously and all four evaluators succeed. -/
theorem C2_witness :
    (∃ r, bbrsi_populate_buy_trend [] dfAll = .ok r) ∧
    (∃ r, bbrsi_populate_sell_trend [] dfAll = .ok r) ∧
    (∃ r, s2_populate_buy_trend [] dfAll = .ok r) ∧
    (∃ r, s2_populate_sell_trend [] dfAll = .ok r) :=
  C2_no_keyerror_when_guarded_lookups_present [] dfAll
    (by decide) (by decide) (by decide) (by decide) (by decide) (by decide)
    (by decide) (by decide) (by decide) (by decide) (by decide)
    (fun h => absurd h (by decide)) (fun h => absurd h (by decide))
    (fun h => absurd h (by decide)) (fun h => absurd h (by decide))
    (fun h => absurd h (by decide)) (fun h => absurd h (by decide))
    (fun h => absurd h (by decide))

/-- C9: in `Strategy002Hyperopt`'s sell generator, the guard enabled by
`'sell-fisher-rsi-enabled'` compares the raw `'rsi'` column (not
`'fisher_rsi'`) against `params['sell-fisher-rsi-value']`; hence for every
assignment whose value lies in the declared domain `[-1, 1]` and every table
whose rsi cells all exceed `1`, the appended condition is true on every row
(with the sar guard disabled, it is the single appended condition). -/
theorem C9_sell_fisher_guard_compares_raw_rsi (p : Params) (df : DataFrame)
    (q : ℚ) (col : List Cell)
    (hen : truthy (p.lookup "sell-fisher-rsi-enabled") = true)
    (hval : p.lookup "sell-fisher-rsi-value" = some (Value.vNum q))
    (_hq1 : -1 ≤ q) (hq2 : q ≤ 1)
    (hsar : truthy (p.lookup "sell-sar-enabled") = false)
    (hcol : df.cols.lookup "rsi" = some col)
    (hgt : ∀ c ∈ col, ∃ r, c = some r ∧ 1 < r) :
    s2_sell_conditions p df = .ok [col.map fun c => cellGt c q] ∧
    ∀ b ∈ col.map fun c => cellGt c q, b = true := by
  constructor
  · have e1 : guardCond p "sell-fisher-rsi-enabled" "sell-fisher-rsi-enabled"
        "sell-fisher-rsi-value" df "rsi" CmpOp.gt = .ok [col.map fun c => cellGt c q] := by
      simp [guardCond, guardCheck_same, hen, getCol, hcol, getParam, hval,
        cmpColVal, numOf]
    have e2 := guardCond_not_enabled hsar "sell-sar-value" df "sar" CmpOp.gt
    simp only [s2_sell_conditions, e1, e2, List.append_nil]
  · intro b hb
    simp only [List.mem_map] at hb
    obtain ⟨c, hc, rfl⟩ := hb
    obtain ⟨r, rfl, hr⟩ := hgt c hc
    simp only [cellGt, decide_eq_true_eq]
    exact lt_of_le_of_lt hq2 hr

/-- Witness for C9 at the boundary domain value `1` on the table `dfAll`,
whose rsi column is `[40, 60]`. -/
theorem C9_witness :
    s2_sell_conditions
      [("sell-fisher-rsi-enabled", Value.vBool true),
       ("sell-fisher-rsi-value", Value.vNum 1)] dfAll =
      .ok [List.map (fun c => cellGt c 1) [some 40, some 60]] ∧
    ∀ b ∈ List.map (fun c => cellGt c 1) [some 40, some 60], b = true :=
  C9_sell_fisher_guard_compares_raw_rsi
    [("sell-fisher-rsi-enabled", Value.vBool true),
     ("sell-fisher-rsi-value", Value.vNum 1)] dfAll 1 [some 40, some 60]
    rfl rfl (by norm_num) le_rfl rfl rfl
    (by
      intro c hc
      simp only [List.mem_cons, List.not_mem_nil, or_false] at hc
      rcases hc with rfl | rfl
      · exact ⟨40, rfl, by norm_num⟩
      · exact ⟨60, rfl, by norm_num⟩)

/-- C10: whenever the external RSI indicator is insensitive to the presence
of the freshly written `'rsi'` column (as talib's RSI, which reads only the
close series, is), the table returned by `BBRSIHyperOpt.populate_indicators`
has its `'sell-rsi'` column equal to its `'rsi'` column at every row. -/
theorem C10_sell_rsi_equals_rsi (lib : IndLib) (df : DataFrame)
    (hR : ∀ (d : DataFrame) (c : List Cell), lib.RSI (setW d "rsi" c) = lib.RSI d) :
    ∀ i, getCell (bbrsi_populate_indicators lib df) "sell-rsi" i =
      getCell (bbrsi_populate_indicators lib df) "rsi" i := by
  intro i
  have h1 : (bbrsi_populate_indicators lib df).cols.lookup "sell-rsi" =
      some (lib.RSI (setW df "rsi" (lib.RSI df))) := by
    simp [bbrsi_populate_indicators, setW, lookup_setCol]
  have h2 : (bbrsi_populate_indicators lib df).cols.lookup "rsi" =
      some (lib.RSI df) := by
    simp [bbrsi_populate_indicators, setW, lookup_setCol]
  rw [getCell, getCell, h1, h2, hR]

/-- Witness for C10 with the concrete library `lib0`, whose RSI depends only
on the row count. -/
theorem C10_witness :
    getCell (bbrsi_populate_indicators lib0 dfPrice) "sell-rsi" 0 =
      getCell (bbrsi_populate_indicators lib0 dfPrice) "rsi" 0 :=
  C10_sell_rsi_equals_rsi lib0 dfPrice (fun _ _ => rfl) 0

set_option maxHeartbeats 2000000 in
/-- C8: each annotator keeps the row count (rows are never reordered or
dropped: columns are only written whole, never permuted), leaves every
column outside its fixed indicator set untouched, produces every column of
its statically known indicator set, adds nothing else, and is deterministic
(equal inputs give equal outputs, the external indicator functions being
fixed pure functions). -/
theorem C8_populate_indicators_frame (lib : IndLib) (df : DataFrame) :
    ((bbrsi_populate_indicators lib df).nrows = df.nrows ∧
     (∀ n, n ∉ bbrsiIndicatorCols →
       (bbrsi_populate_indicators lib df).cols.lookup n = df.cols.lookup n) ∧
     (∀ n, n ∈ bbrsiIndicatorCols →
       ((bbrsi_populate_indicators lib df).cols.lookup n).isSome = true) ∧
     (∀ n, ((bbrsi_populate_indicators lib df).cols.lookup n).isSome = true →
       (df.cols.lookup n).isSome = true ∨ n ∈ bbrsiIndicatorCols)) ∧
    ((s2_populate_indicators lib df).nrows = df.nrows ∧
     (∀ n, n ∉ s2IndicatorCols →
       (s2_populate_indicators lib df).cols.lookup n = df.cols.lookup n) ∧
     (∀ n, n ∈ s2IndicatorCols →
       ((s2_populate_indicators lib df).cols.lookup n).isSome = true) ∧
     (∀ n, ((s2_populate_indicators lib df).cols.lookup n).isSome = true →
       (df.cols.lookup n).isSome = true ∨ n ∈ s2IndicatorCols)) ∧
    (∀ d d', d = d' →
      bbrsi_populate_indicators lib d = bbrsi_populate_indicators lib d') ∧
    (∀ d d', d = d' →
      s2_populate_indicators lib d = s2_populate_indicators lib d') := by
  have hbp : ∀ n, n ∉ bbrsiIndicatorCols →
      (bbrsi_populate_indicators lib df).cols.lookup n = df.cols.lookup n := by
    intro n hn
    simp only [bbrsiIndicatorCols, List.mem_cons, List.not_mem_nil, or_false,
      not_or] at hn
    obtain ⟨e1, e2, e3, e4, e5, e6, e7, e8, e9, e10, e11, e12, e13, e14⟩ := hn
    simp [bbrsi_populate_indicators, setW, lookup_setCol,
      e1, e2, e3, e4, e5, e6, e7, e8, e9, e10, e11, e12, e13, e14]
  have hsp : ∀ n, n ∉ s2IndicatorCols →
      (s2_populate_indicators lib df).cols.lookup n = df.cols.lookup n := by
    intro n hn
    simp only [s2IndicatorCols, List.mem_cons, List.not_mem_nil, or_false,
      not_or] at hn
    obtain ⟨e1, e2, e3, e4, e5, e6, e7, e8, e9⟩ := hn
    simp [s2_populate_indicators, setW, lookup_setCol,
      e1, e2, e3, e4, e5, e6, e7, e8, e9]
  refine ⟨⟨rfl, hbp, ?_, ?_⟩, ⟨rfl, hsp, ?_, ?_⟩, ?_, ?_⟩
  · intro n hn
    simp only [bbrsiIndicatorCols, List.mem_cons, List.not_mem_nil, or_false] at hn
    rcases hn with rfl | rfl | rfl | rfl | rfl | rfl | rfl | rfl | rfl | rfl |
      rfl | rfl | rfl | rfl <;>
      simp [bbrsi_populate_indicators, setW, lookup_setCol]
  · intro n h
    by_cases hm : n ∈ bbrsiIndicatorCols
    · exact Or.inr hm
    · rw [hbp n hm] at h
      exact Or.inl h
  · intro n hn
    simp only [s2IndicatorCols, List.mem_cons, List.not_mem_nil, or_false] at hn
    rcases hn with rfl | rfl | rfl | rfl | rfl | rfl | rfl | rfl | rfl <;>
      simp [s2_populate_indicators, setW, lookup_setCol]
  · intro n h
    by_cases hm : n ∈ s2IndicatorCols
    · exact Or.inr hm
    · rw [hsp n hm] at h
      exact Or.inl h
  · intro d d' h
    rw [h]
  · intro d d' h
    rw [h]

/-- Witness for C8 at the concrete library `lib0` and raw table `dfPrice`:
the close column survives annotation and the sar indicator column appears. -/
theorem C8_witness :
    (bbrsi_populate_indicators lib0 dfPrice).cols.lookup "close" =
      dfPrice.cols.lookup "close" ∧
    ((s2_populate_indicators lib0 dfPrice).cols.lookup "sar").isSome = true :=
  ⟨(C8_populate_indicators_frame lib0 dfPrice).1.2.1 "close" (by decide),
   (C8_populate_indicators_frame lib0 dfPrice).2.1.2.2.1 "sar" (by decide)⟩
